import Mathlib

/-!
Verification of the content-scoring engine of `automated-content-optimizer`.

The authoritative implementations are `src/core/seo/seo_optimizer.py`
(`SEOOptimizer`) and `src/core/geo/geo_optimizer.py` (`GEOOptimizer`).
Text content is embedded as `List Char` (the Python `str`).  Scores and
averages are embedded as `ℚ` (Python floats hold exact small rationals on
every input the scoring rules compare against).

The optimizers call two external libraries whose code is not part of the
repository: NLTK (`word_tokenize`, `sent_tokenize`) and BeautifulSoup.
Those are modelled from the spec (§4.1: words split on whitespace,
sentences split at `.`/`!`/`?` boundaries; §4.4: tag counting), as noted
on each such definition.  Everything else is transcribed from the Python
source.
-/

/-! ## String primitives (Python semantics) -/

/-- Python `str.lower`, character by character (ASCII contents). -/
def lowerChars (s : List Char) : List Char := s.map Char.toLower

/-- Fuel-driven scanner for Python `str.count`: counts non-overlapping
occurrences of `needle` in `hay`, scanning left to right and skipping the
whole needle after each match.  `fuel ≥ hay.length` suffices. -/
def pyCountAux (needle : List Char) : Nat → List Char → Nat
  | 0, _ => 0
  | _, [] => 0
  | f + 1, c :: t =>
    if needle.isPrefixOf (c :: t) then
      1 + pyCountAux needle f (List.drop needle.length (c :: t))
    else
      pyCountAux needle f t

/-- Python `hay.count(needle)`: non-overlapping substring occurrences;
`"".count("")` is `1` and generally the empty needle matches `len+1` times. -/
def pyCount (hay needle : List Char) : Nat :=
  if needle = [] then hay.length + 1 else pyCountAux needle (hay.length + 1) hay

/-- Fuel-driven scanner for Python `str.split(sep)` with a non-empty
separator: cuts `hay` at each non-overlapping occurrence of `sep`,
keeping empty fields (`"".split(sep) == [""]`). -/
def pySplitAux (sep : List Char) : Nat → List Char → List Char → List (List Char)
  | 0, acc, rest => [acc.reverse ++ rest]
  | _ + 1, acc, [] => [acc.reverse]
  | f + 1, acc, c :: t =>
    if sep.isPrefixOf (c :: t) then
      acc.reverse :: pySplitAux sep f [] (List.drop sep.length (c :: t))
    else
      pySplitAux sep f (c :: acc) t

/-- Python `hay.split(sep)` for a non-empty separator. -/
def pySplit (hay sep : List Char) : List (List Char) :=
  pySplitAux sep (hay.length + 1) [] hay

/-- `True` when `needle` occurs in `hay` as a contiguous substring
(Python `needle in hay`, also `re.search` of a literal pattern). -/
def containsSub : (hay needle : List Char) → Bool
  | _, [] => true
  | [], _ :: _ => false
  | c :: t, n => n.isPrefixOf (c :: t) || containsSub t n

/-! ## Tokenization, modelled from the spec

NLTK's `word_tokenize` and `sent_tokenize` are external library calls.
Per spec §4.1 the normalizer splits words on whitespace and sentences at
punctuation boundaries (`.`, `!`, `?`). -/

/-- Modelled from the spec: NLTK `word_tokenize` is external; spec §4.1
splits into words on whitespace.  Empty input yields no words. -/
def wordsOf : List Char → List (List Char) :=
  go []
where
  go (acc : List Char) : List Char → List (List Char)
    | [] => if acc = [] then [] else [acc.reverse]
    | c :: t =>
      if c.isWhitespace then
        if acc = [] then go [] t else acc.reverse :: go [] t
      else
        go (c :: acc) t

/-- A sentence-terminating character per spec §4.1. -/
def isSentenceEnd (c : Char) : Bool := c = '.' || c = '!' || c = '?'

/-- Modelled from the spec: NLTK `sent_tokenize` is external; spec §4.1
splits into sentences at `.`/`!`/`?` boundaries.  Chunks holding only
whitespace are not sentences, so empty input yields no sentences. -/
def sentencesOf : List Char → List (List Char) :=
  go []
where
  emit (acc : List Char) (rest : List (List Char)) : List (List Char) :=
    if acc.any (fun c => !c.isWhitespace) then acc.reverse :: rest else rest
  go (acc : List Char) : List Char → List (List Char)
    | [] => emit acc []
    | c :: t =>
      if isSentenceEnd c then emit (c :: acc) (go [] t) else go (c :: acc) t

/-! ## SEO metrics and scoring (`src/core/seo/seo_optimizer.py`) -/

/-- The fields of the metrics dict that `SEOOptimizer._calculate_score` and
`_generate_suggestions` read.  Absent dict keys are the `.get` defaults
(`0`), except `"issues"`, whose *presence* is tested, hence an `Option`. -/
structure SEOMetrics where
  word_count : Nat
  avg_sentence_length : ℚ
  avg_word_length : ℚ
  sentence_count : Nat
  paragraph_count : Nat
  h1 : Nat
  h2 : Nat
  links : Nat
  images : Nat
  lists : Nat
  issues : Option (List String)
deriving DecidableEq, Repr

/-- `SEOOptimizer._calculate_score`, transcribed statement by statement:
start at 100, apply each deduction in source order, then
`max(0, min(100, score))`. -/
def seoCalculateScore (m : SEOMetrics) : Int :=
  let score : Int := 100
  let score := if m.word_count < 300 then score - 20
    else if m.word_count < 600 then score - 10 else score
  let score := if m.avg_sentence_length > 25 then score - 10 else score
  let score := if m.h1 = 0 then score - 10 else score
  let score := if m.links = 0 then score - 5 else score
  let score := match m.issues with
    | some l => score - (l.length : Int) * 5
    | none => score
  max 0 (min 100 score)

/-- Number of keyword-density issues recorded in the metrics dict
(`0` when the `"issues"` key is absent). -/
def seoIssueCount (m : SEOMetrics) : Nat :=
  match m.issues with
  | some l => l.length
  | none => 0

/-- The SEO score exactly as the spec's sentence words it: 100 minus the
word-count, sentence-length, H1, link and per-issue deductions, clamped. -/
def seoScoreSpec (m : SEOMetrics) : Int :=
  max 0 (min 100 (100
    - (if m.word_count < 300 then 20 else if m.word_count < 600 then 10 else 0)
    - (if m.avg_sentence_length > 25 then 10 else 0)
    - (if m.h1 = 0 then 10 else 0)
    - (if m.links = 0 then 5 else 0)
    - (seoIssueCount m : Int) * 5))

/-! ## Theorems -/

/-- C1: for every metrics input, `SEOOptimizer._calculate_score` returns
exactly the spec's deduction formula: start at 100; deduct 20 if
`wordCount < 300`, else 10 if `wordCount < 600`; deduct 10 if
`avgSentenceLength > 25`; deduct 10 if there is no H1 heading; deduct 5 if
`links == 0`; deduct 5 per keyword-density issue; clamp to `[0, 100]`. -/
theorem seo_calculate_score_eq_spec (m : SEOMetrics) :
    seoCalculateScore m = seoScoreSpec m := by
  rcases m with ⟨wc, avg, awl, sc, pc, h1, h2, links, img, lsts, issues⟩
  rcases issues with _ | l <;>
    simp only [seoCalculateScore, seoScoreSpec, seoIssueCount] <;>
    split_ifs <;> omega

/-! ## GEO metrics and scoring (`src/core/geo/geo_optimizer.py`) -/

/-- The `"context_clarity"` metric group built by
`GEOOptimizer._analyze_context_clarity`. -/
structure ContextClarity where
  sentence_count : Nat
  avg_sentence_length : ℚ
  unique_entities : ℚ
  complex_sentence_ratio : ℚ
  transition_density : ℚ
deriving DecidableEq, Repr

/-- The `"factual_consistency"` metric group built by
`GEOOptimizer._analyze_factual_consistency`. -/
structure FactualConsistency where
  claim_count : Nat
  citation_count : Nat
  verifiable_statements : Nat
deriving DecidableEq, Repr

/-- The `"voice_search"` metric group built by
`GEOOptimizer._optimize_for_voice_search`. -/
structure VoiceSearch where
  question_count : Nat
  conversational_phrases : Nat
  natural_language_score : ℚ
deriving DecidableEq, Repr

/-- The metric groups that `GEOOptimizer._calculate_score` and
`_generate_suggestions` test for (`if "context_clarity" in metrics` etc.);
each group is an `Option` because its key may be absent. -/
structure GEOMetrics where
  context_clarity : Option ContextClarity
  factual_consistency : Option FactualConsistency
  voice_search : Option VoiceSearch
deriving DecidableEq, Repr

/-- `GEOOptimizer._calculate_score`, transcribed statement by statement:
start at 100, apply each group's deductions when the group is present,
then `max(0, min(100, score))`. -/
def geoCalculateScore (m : GEOMetrics) : Int :=
  let score : Int := 100
  let score := match m.context_clarity with
    | some clarity =>
      let score := if clarity.complex_sentence_ratio > 3/10 then score - 10 else score
      if clarity.transition_density < 2/10 then score - 10 else score
    | none => score
  let score := match m.factual_consistency with
    | some factual =>
      let score := if factual.citation_count = 0 then score - 15 else score
      if factual.verifiable_statements < 3 then score - 10 else score
    | none => score
  let score := match m.voice_search with
    | some voice =>
      let score := if voice.natural_language_score < 70 then score - 10 else score
      if voice.conversational_phrases = 0 then score - 5 else score
    | none => score
  max 0 (min 100 score)

/-- The GEO score exactly as the spec's sentence words it, for metrics
holding all three groups: 100 minus the six conditional deductions,
clamped to `[0, 100]`. -/
def geoScoreSpec (cc : ContextClarity) (fc : FactualConsistency)
    (vs : VoiceSearch) : Int :=
  max 0 (min 100 (100
    - (if cc.complex_sentence_ratio > 3/10 then 10 else 0)
    - (if cc.transition_density < 2/10 then 10 else 0)
    - (if fc.citation_count = 0 then 15 else 0)
    - (if fc.verifiable_statements < 3 then 10 else 0)
    - (if vs.natural_language_score < 70 then 10 else 0)
    - (if vs.conversational_phrases = 0 then 5 else 0)))

/-- C2: for every metrics input containing the context-clarity,
factual-consistency and voice-search groups,
`GEOOptimizer._calculate_score` returns exactly the spec's deduction
formula: start at 100; deduct 10 if `complexSentenceRatio > 0.3`; deduct
10 if `transitionDensity < 0.2`; deduct 15 if `citationCount == 0`; deduct
10 if `verifiableStatements < 3`; deduct 10 if `naturalLanguageScore < 70`;
deduct 5 if `conversationalPhraseCount == 0`; clamp to `[0, 100]`. -/
theorem geo_calculate_score_eq_spec (m : GEOMetrics)
    (cc : ContextClarity) (fc : FactualConsistency) (vs : VoiceSearch)
    (hcc : m.context_clarity = some cc)
    (hfc : m.factual_consistency = some fc)
    (hvs : m.voice_search = some vs) :
    geoCalculateScore m = geoScoreSpec cc fc vs := by
  rcases m with ⟨occ, ofc, ovs⟩
  cases hcc; cases hfc; cases hvs
  simp only [geoCalculateScore, geoScoreSpec]
  split_ifs <;> omega

/-- Witness for C2 at a concrete metrics value: all three groups present,
one deduction from each group firing, score `100 - 10 - 15 - 5 = 70`. -/
theorem geo_calculate_score_eq_spec_witness :
    geoCalculateScore
      { context_clarity := some ⟨4, 12, 1/2, 1/2, 1/2⟩
        factual_consistency := some ⟨3, 0, 3⟩
        voice_search := some ⟨1, 0, 85⟩ } =
      geoScoreSpec ⟨4, 12, 1/2, 1/2, 1/2⟩ ⟨3, 0, 3⟩ ⟨1, 0, 85⟩ :=
  geo_calculate_score_eq_spec _ _ _ _ rfl rfl rfl

/-! ## C3: the word-count boundary -/

/-- C3 counterexample: metrics with exactly 300 words, one H1, one link, no
keyword issues and average sentence length 20 ≤ 25.  The claim says no
word-count deduction applies at 300 and the score is 100; the source's
`elif word_count < 600: score -= 10` fires (300 < 600), so the score is
90, not 100 (the repository's own test expects 90 at 300 words). -/
theorem seo_score_at_300_ne_100 :
    seoCalculateScore ⟨300, 20, 5, 15, 3, 1, 1, 1, 1, 0, none⟩ = 90 ∧
      seoCalculateScore ⟨300, 20, 5, 15, 3, 1, 1, 1, 1, 0, none⟩ ≠ 100 := by
  constructor <;> decide

/-- C3 amended: at `wordCount = 299` the word-count deduction of 20
applies, and at `wordCount = 300` a word-count deduction of 10 (not 0)
still applies, because the source deducts 10 for every `300 ≤ wordCount
< 600`; consequently content with exactly 300 words, one H1 heading, at
least one link, no keyword-density issues and average sentence length at
most 25 scores exactly 90 (and 80 at 299 words), not 100. -/
theorem seo_word_count_boundary (m : SEOMetrics)
    (hh : m.h1 ≠ 0) (hl : m.links ≠ 0) (hi : m.issues = none)
    (ha : m.avg_sentence_length ≤ 25) :
    (m.word_count = 299 → seoCalculateScore m = 80) ∧
      (m.word_count = 300 → seoCalculateScore m = 90) := by
  rcases m with ⟨wc, avg, awl, sc, pc, f1, f2, links, img, lsts, issues⟩
  simp only at hh hl hi ha
  subst hi
  constructor <;> intro hw <;> subst hw <;>
    simp only [seoCalculateScore] <;> split_ifs <;>
    first | rfl | omega | linarith

/-- Witness for C3 amended at a concrete metrics record with 299 words. -/
theorem seo_word_count_boundary_witness :
    seoCalculateScore ⟨299, 20, 5, 15, 3, 1, 1, 1, 1, 0, none⟩ = 80 :=
  (seo_word_count_boundary ⟨299, 20, 5, 15, 3, 1, 1, 1, 1, 0, none⟩
    (by decide) (by decide) rfl (by norm_num)).1 rfl

/-! ## Readability analysis (`SEOOptimizer._analyze_readability`) -/

/-- The dict returned by `SEOOptimizer._analyze_readability`. -/
structure Readability where
  avg_sentence_length : ℚ
  avg_word_length : ℚ
  sentence_count : Nat
  paragraph_count : Nat
deriving DecidableEq, Repr

/-- `SEOOptimizer._analyze_readability`: averages guarded by Python
truthiness of the token lists (`if sentences`, `if words`), sentence count,
and `len(content.split('\n\n'))` for the paragraph count.  Total by
construction: no branch can throw. -/
def analyzeReadability (content : List Char) : Readability :=
  let sentences := sentencesOf content
  let words := wordsOf content
  { avg_sentence_length :=
      if sentences.length ≠ 0 then (words.length : ℚ) / sentences.length else 0
    avg_word_length :=
      if words.length ≠ 0 then
        (((words.map List.length).sum : Nat) : ℚ) / words.length
      else 0
    sentence_count := sentences.length
    paragraph_count := (pySplit content ['\n', '\n']).length }

/-- C8 counterexample: on empty content the paragraph count is 1, not 0,
because Python's `"".split('\n\n')` returns `[""]`, a one-element list. -/
theorem analyze_readability_empty_paragraph_count :
    (analyzeReadability []).paragraph_count = 1 ∧
      (analyzeReadability []).paragraph_count ≠ 0 := by
  constructor <;> decide

/-- C8 amended: for empty input content the readability analysis returns
`avgSentenceLength = 0`, `avgWordLength = 0`, `sentenceCount = 0` and
`paragraphCount = 1` (not 0: `"".split('\n\n') == [""]`), and never
throws (the embedded analyzer is total). -/
theorem analyze_readability_empty :
    analyzeReadability [] = ⟨0, 0, 0, 1⟩ := by
  decide

/-! ## Keyword analysis (`SEOOptimizer._analyze_keywords`) -/

/-- `len(word_tokenize(content.lower()))`: the total word count the
keyword analysis divides by. -/
def keywordTotalWords (content : List Char) : Nat :=
  (wordsOf (lowerChars content)).length

/-- `content.lower().count(keyword.lower())`: the case-insensitive
substring occurrence count reported as `keyword_count[keyword]`. -/
def keywordCount (content keyword : List Char) : Nat :=
  pyCount (lowerChars content) (lowerChars keyword)

/-- `density = count / total_words if total_words > 0 else 0`, reported
as `keyword_density[keyword]`. -/
def keywordDensity (content keyword : List Char) : ℚ :=
  if 0 < keywordTotalWords content then
    (keywordCount content keyword : ℚ) / keywordTotalWords content
  else 0

/-- C6 counterexample: for content `"banana"` and keyword `"an"` the
substring count is 2 while the word count is 1, so the reported density
is 2, outside `[0,1]` (substring matches inside a longer word). -/
theorem keyword_density_banana_gt_one :
    keywordDensity "banana".toList "an".toList = 2 ∧
      ¬ keywordDensity "banana".toList "an".toList ≤ 1 := by
  have hc : keywordCount "banana".toList "an".toList = 2 := by decide
  have hw : keywordTotalWords "banana".toList = 1 := by decide
  have hd : keywordDensity "banana".toList "an".toList = 2 := by
    unfold keywordDensity
    rw [hc, hw]
    norm_num
  rw [hd]
  norm_num

/-- C6 amended: the keyword density is always nonnegative (and 0 when
there are no words), and it lies in `[0,1]` whenever the substring
occurrence count is at most the total word count; it can exceed 1 only
because occurrences are counted as substrings, which may outnumber the
words. -/
theorem keyword_density_nonneg_and_le_one (content keyword : List Char) :
    0 ≤ keywordDensity content keyword ∧
      (keywordCount content keyword ≤ keywordTotalWords content →
        keywordDensity content keyword ≤ 1) := by
  unfold keywordDensity
  split_ifs with h
  · refine ⟨by positivity, fun hle => ?_⟩
    rw [div_le_one (by exact_mod_cast h)]
    exact_mod_cast hle
  · exact ⟨le_refl 0, fun _ => by norm_num⟩

/-- Witness for C6 amended at content `"banana"` and keyword `"ban"`:
count 1 ≤ 1 word, density 1 ∈ [0,1]. -/
theorem keyword_density_nonneg_and_le_one_witness :
    0 ≤ keywordDensity "banana".toList "ban".toList ∧
      keywordDensity "banana".toList "ban".toList ≤ 1 :=
  ⟨(keyword_density_nonneg_and_le_one "banana".toList "ban".toList).1,
    (keyword_density_nonneg_and_le_one "banana".toList "ban".toList).2
      (by decide)⟩

/-- C9: with the total word count held constant, a content holding at
least as many occurrences of the target keyword is reported a count and a
density at least as large: the reported count is the occurrence count
itself and the density divides it by the shared word count. -/
theorem keyword_density_monotone (c₁ c₂ k : List Char)
    (hw : keywordTotalWords c₁ = keywordTotalWords c₂)
    (hc : keywordCount c₁ k ≤ keywordCount c₂ k) :
    keywordCount c₁ k ≤ keywordCount c₂ k ∧
      keywordDensity c₁ k ≤ keywordDensity c₂ k := by
  refine ⟨hc, ?_⟩
  unfold keywordDensity
  rw [hw]
  split_ifs with h
  · have hpos : (0 : ℚ) < keywordTotalWords c₂ := by exact_mod_cast h
    exact (div_le_div_iff_of_pos_right hpos).mpr (by exact_mod_cast hc)
  · exact le_refl 0

/-- Witness for C9: `"dog cat"` vs `"cat cat"` with keyword `"cat"`:
both have 2 words, counts 1 ≤ 2, densities 1/2 ≤ 1. -/
theorem keyword_density_monotone_witness :
    keywordCount "dog cat".toList "cat".toList ≤
        keywordCount "cat cat".toList "cat".toList ∧
      keywordDensity "dog cat".toList "cat".toList ≤
        keywordDensity "cat cat".toList "cat".toList :=
  keyword_density_monotone "dog cat".toList "cat cat".toList "cat".toList
    (by decide) (by decide)

/-! ## Voice-search analysis (`GEOOptimizer._optimize_for_voice_search`) -/

/-- A regex word character (`\w`): letter, digit or underscore. -/
def isWordChar (c : Char) : Bool := c.isAlphanum || c = '_'

/-- `\b` to the left of a match: boundary between the preceding character
(`none` at start of string) and the first matched character. -/
def boundaryBefore (prev : Option Char) (first : Char) : Bool :=
  match prev with
  | none => isWordChar first
  | some p => isWordChar p != isWordChar first

/-- `\b` to the right of a match: boundary between the last matched
character and the following character (`none` at end of string). -/
def boundaryAfter (last : Char) (next : Option Char) : Bool :=
  match next with
  | none => isWordChar last
  | some n => isWordChar last != isWordChar n

/-- `re.search` of `\b pat \b` for a non-empty literal `pat`: some
occurrence of `pat` with word boundaries at both ends. -/
def containsBounded (first : Char) (rest : List Char) (s : List Char) : Bool :=
  go none s
where
  pat : List Char := first :: rest
  go : Option Char → List Char → Bool
    | _, [] => false
    | prev, c :: t =>
      (pat.isPrefixOf (c :: t) && boundaryBefore prev first &&
        boundaryAfter (pat.getLastD first) ((c :: t).drop pat.length).head?)
      || go (some c) t

/-- The `question_patterns` of `_optimize_for_voice_search`; each is
wrapped in `\b...\b` by the source's f-string. -/
def questionPatterns : List (Char × List Char) :=
  [('?', []), ('w', "hat".toList), ('h', "ow".toList), ('w', "hy".toList),
   ('w', "hen".toList), ('w', "here".toList), ('w', "ho".toList)]

/-- The `conversational_patterns` of `_optimize_for_voice_search`,
searched as plain substrings of the lowered sentence. -/
def conversationalPatterns : List (List Char) :=
  ["you can".toList, "let's".toList, "here's".toList, "imagine".toList,
   "think about".toList]

/-- The average sentence length computed inside
`_optimize_for_voice_search` (and `_optimize_for_chatgpt`):
`sum(len(word_tokenize(s)) for s in sentences) / len(sentences)` when
there are sentences, else 0. -/
def voiceAvgSentenceLength (content : List Char) : ℚ :=
  let sentences := sentencesOf content
  if sentences.length ≠ 0 then
    (((sentences.map fun s => (wordsOf s).length).sum : Nat) : ℚ) /
      sentences.length
  else 0

/-- `GEOOptimizer._optimize_for_voice_search`: question and
conversational-phrase counts over the sentences, and
`natural_language_score = 100 - abs(15 - avg_sentence_length) * 3`
(the source applies no clamp). -/
def optimizeForVoiceSearch (content : List Char) : VoiceSearch :=
  let sentences := sentencesOf content
  { question_count :=
      (sentences.filter fun s =>
        questionPatterns.any fun p =>
          containsBounded p.1 p.2 (lowerChars s)).length
    conversational_phrases :=
      (sentences.filter fun s =>
        conversationalPatterns.any fun p =>
          containsSub (lowerChars s) p).length
    natural_language_score := 100 - |15 - voiceAvgSentenceLength content| * 3 }

/-- The natural-language score as the spec's sentence words it:
`clamp(100 − |15 − avgSentenceLength| × 3, 0, 100)`. -/
def naturalLanguageScoreSpec (content : List Char) : ℚ :=
  max 0 (min 100 (100 - |15 - voiceAvgSentenceLength content| * 3))

/-- A single 49-word sentence (`"a a ... a"`, no punctuation), whose
average sentence length 49 drives the unclamped score to `-2`. -/
def longSentence : List Char := List.intercalate [' '] (List.replicate 49 ['a'])

/-- C7 counterexample: on a single 49-word sentence the source computes
`100 - |15 - 49| * 3 = -2`, while the claimed clamped formula gives 0;
the source never clamps `natural_language_score`, so it is not always
in `[0, 100]`. -/
theorem natural_language_score_not_clamped :
    (optimizeForVoiceSearch longSentence).natural_language_score = -2 ∧
      naturalLanguageScoreSpec longSentence = 0 ∧
      (optimizeForVoiceSearch longSentence).natural_language_score ≠
        naturalLanguageScoreSpec longSentence := by
  have hlen : (sentencesOf longSentence).length = 1 := by decide
  have hsum : ((sentencesOf longSentence).map
      fun s => (wordsOf s).length).sum = 49 := by decide
  have havg : voiceAvgSentenceLength longSentence = 49 := by
    simp only [voiceAvgSentenceLength, hlen, hsum]
    norm_num
  have habs : |(15 : ℚ) - 49| = 34 := by
    rw [show (15 : ℚ) - 49 = -34 by norm_num, abs_neg,
      abs_of_nonneg (by norm_num : (0 : ℚ) ≤ 34)]
  have hraw : (optimizeForVoiceSearch longSentence).natural_language_score
      = -2 := by
    simp only [optimizeForVoiceSearch, havg, habs]
    norm_num
  have hspec : naturalLanguageScoreSpec longSentence = 0 := by
    simp only [naturalLanguageScoreSpec, havg, habs]
    norm_num
  exact ⟨hraw, hspec, by rw [hraw, hspec]; norm_num⟩

/-- C7 amended: the voice-search natural-language score is
`100 − |15 − avgSentenceLength| × 3` with no clamping; it never exceeds
100 (the deviation penalty is nonnegative) but can drop below 0, so it
does not always lie in `[0, 100]`. -/
theorem natural_language_score_formula (content : List Char) :
    (optimizeForVoiceSearch content).natural_language_score =
        100 - |15 - voiceAvgSentenceLength content| * 3 ∧
      (optimizeForVoiceSearch content).natural_language_score ≤ 100 := by
  refine ⟨rfl, ?_⟩
  simp only [optimizeForVoiceSearch]
  have : (0 : ℚ) ≤ |15 - voiceAvgSentenceLength content| * 3 := by positivity
  linarith

/-! ## Platform-specific optimization (`GEOOptimizer._optimize_for_platform`) -/

/-- The `"chatgpt_metrics"` group built by `_optimize_for_chatgpt`. -/
structure ChatGPTMetrics where
  structure_score : Nat
  clarity_score : ℚ
  context_score : Nat
deriving DecidableEq, Repr

/-- The `"claude_metrics"` group built by `_optimize_for_claude`. -/
structure ClaudeMetrics where
  reasoning_score : Nat
  evidence_score : Nat
  coherence_score : Nat
deriving DecidableEq, Repr

/-- The `context_patterns` of `_optimize_for_chatgpt`. -/
def contextPatterns : List (List Char) :=
  ["for example".toList, "specifically".toList, "in other words".toList,
   "to illustrate".toList]

/-- Number of patterns of `pats` found anywhere in the content,
case-insensitively (`re.search(pattern, content, re.IGNORECASE)` over
lowercase literal patterns). -/
def patternMatchCount (content : List Char) (pats : List (List Char)) : Nat :=
  (pats.filter fun p => containsSub (lowerChars content) p).length

/-- `GEOOptimizer._optimize_for_chatgpt`: paragraph-count structure score,
the shared sentence-length clarity formula, and discourse-marker context
score, each capped at 100 (the clarity formula is not capped). -/
def optimizeForChatgpt (content : List Char) : ChatGPTMetrics :=
  let paragraphs := pySplit content ['\n', '\n']
  { structure_score := min 100 (paragraphs.length * 10)
    clarity_score := 100 - |15 - voiceAvgSentenceLength content| * 3
    context_score := min 100 (patternMatchCount content contextPatterns * 20) }

/-- The `reasoning_patterns` of `_optimize_for_claude`. -/
def reasoningPatterns : List (List Char) :=
  ["therefore".toList, "because".toList, "consequently".toList,
   "as a result".toList]

/-- The `evidence_patterns` of `_optimize_for_claude`. -/
def evidencePatterns : List (List Char) :=
  ["according to".toList, "research shows".toList, "data indicates".toList]

/-- `GEOOptimizer._optimize_for_claude`: causal-connective reasoning
score, attribution evidence score, and a paragraph-count coherence score
(100 from three paragraphs up, else `count * 33`). -/
def optimizeForClaude (content : List Char) : ClaudeMetrics :=
  let paragraphs := pySplit content ['\n', '\n']
  { reasoning_score := min 100 (patternMatchCount content reasoningPatterns * 20)
    evidence_score := min 100 (patternMatchCount content evidencePatterns * 25)
    coherence_score :=
      if paragraphs.length ≥ 3 then 100 else paragraphs.length * 33 }

/-- The platform-specific group merged into the base dict by
`metrics.update(...)` in `_optimize_for_platform`. -/
inductive PlatformExtra where
  | chatgpt (m : ChatGPTMetrics)
  | claude (m : ClaudeMetrics)
  | voice (m : VoiceSearch)
deriving DecidableEq, Repr

/-- The dict returned by `_optimize_for_platform`: the base keys
`platform_score`/`suggestions` plus, for a recognized platform, the
platform's metric group; `extra = none` mirrors the fall-through when no
`if platform == ...` branch matches. -/
structure PlatformResult where
  platform_score : Nat
  suggestions : List String
  extra : Option PlatformExtra
deriving DecidableEq, Repr

/-- `GEOOptimizer._optimize_for_platform` in `src/core/geo`: branch on the
platform name; an unrecognized name silently returns the base dict
(the source has no `else: raise`). -/
def optimizeForPlatform (content : List Char) (platform : String) :
    PlatformResult :=
  let metrics : PlatformResult :=
    { platform_score := 0, suggestions := [], extra := none }
  if platform = "chatgpt" then
    { metrics with extra := some (.chatgpt (optimizeForChatgpt content)) }
  else if platform = "claude" then
    { metrics with extra := some (.claude (optimizeForClaude content)) }
  else if platform = "voice" then
    { metrics with extra := some (.voice (optimizeForVoiceSearch content)) }
  else
    metrics

/-- C5, behavior at the failing input: for the unknown platform name
`"invalid_platform"` the dispatcher in `src/core/geo/geo_optimizer.py`
raises nothing and returns the base metrics dict
`{"platform_score": 0, "suggestions": []}`, which the caller stores as a
normal per-platform result — contradicting the claimed
`UnsupportedPlatformError` with no partial result (the repository's own
test and the duplicate implementation in `src/src/core/geo_optimizer.py`
expect a `ValueError` here). -/
theorem unknown_platform_returns_partial_result :
    optimizeForPlatform "Test content".toList "invalid_platform" =
      { platform_score := 0, suggestions := [], extra := none } := by
  rfl

/-! ## Structure analysis and the SEO pipeline -/

/-- Modelled from the spec: BeautifulSoup is external; spec §4.4 counts
heading tags per level 1–6, anchors, images and lists, and plain text
(no tag-like markup) yields an all-zero structure.  A tag's count is the
number of occurrences of its opening sequence `<tag` in the lowered
content. -/
def countTag (content : List Char) (tag : List Char) : Nat :=
  pyCount (lowerChars content) ('<' :: tag)

/-- The dict returned by `SEOOptimizer._analyze_structure` (the heading
counts flattened to one field per level). -/
structure StructureMetrics where
  h1 : Nat
  h2 : Nat
  h3 : Nat
  h4 : Nat
  h5 : Nat
  h6 : Nat
  links : Nat
  images : Nat
  lists : Nat
deriving DecidableEq, Repr

/-- `SEOOptimizer._analyze_structure` over the modelled tag counter. -/
def analyzeStructure (content : List Char) : StructureMetrics :=
  { h1 := countTag content "h1".toList
    h2 := countTag content "h2".toList
    h3 := countTag content "h3".toList
    h4 := countTag content "h4".toList
    h5 := countTag content "h5".toList
    h6 := countTag content "h6".toList
    links := countTag content "a".toList
    images := countTag content "img".toList
    lists := countTag content "ul".toList + countTag content "ol".toList }

/-- The f-string appended to `suggestions` by `optimize_content` when the
word count is below the minimum. -/
def lengthSuggestion (wordCount minWordCount : Nat) : String :=
  "Content length (" ++ (toString wordCount ++
    (" words) is below recommended minimum of " ++ (toString minWordCount ++
    " words")))

/-- The f-string appended to `metrics["issues"]` by `_analyze_keywords`
when a keyword's density exceeds the maximum.  The two `:.1%`-formatted
numbers of the source string are omitted: they are float renderings and
no claim reads the issue text, only the list's length. -/
def densityIssue (keyword : List Char) : String :=
  "Keyword '" ++ String.mk keyword ++ "' density exceeds recommended maximum"

/-- The `"issues"` entries accumulated by `_analyze_keywords`: one per
target keyword whose density exceeds `max_density`, in target order.
(The `keyword_count` / `keyword_density` dict entries are
`keywordCount` / `keywordDensity`; the `keyword_positions` entry is not
read by any scoring or suggestion path.) -/
def keywordIssues (content : List Char) (targets : List (List Char))
    (maxDensity : ℚ) : List String :=
  targets.filterMap fun kw =>
    if keywordDensity content kw > maxDensity then some (densityIssue kw)
    else none

/-- `SEOOptimizer._generate_suggestions`: each threshold breach appends
its fixed string, in source order. -/
def seoGenerateSuggestions (m : SEOMetrics) : List String :=
  (if m.word_count < 300 then
    ["Increase content length to at least 300 words"] else []) ++
  ((if m.avg_sentence_length > 25 then
    ["Consider breaking down long sentences for better readability"] else []) ++
  ((if m.h1 = 0 then ["Add an H1 heading to your content"] else []) ++
  ((if m.h2 = 0 then
    ["Consider adding H2 subheadings to structure your content"] else []) ++
  ((if m.links = 0 then ["Add relevant internal or external links"] else []) ++
  (if m.images = 0 then
    ["Consider adding relevant images with alt text"] else [])))))

/-- The dict returned by `SEOOptimizer.optimize_content` (the
`meta_tags` entry is omitted: `_generate_meta_suggestions` feeds only
that output, which no claim reads and which touches neither score nor
suggestions). -/
structure SEOResult where
  original_content : List Char
  optimized_content : List Char
  metrics : SEOMetrics
  suggestions : List String
  score : Int
deriving Repr

/-- `SEOOptimizer.optimize_content` in `src/core/seo/seo_optimizer.py`:
word count, optional keyword analysis (the `"issues"` key exists only
when at least one issue was appended), readability, structure, score and
suggestions.  The source validates nothing — there is no empty-content
check and no branch can raise — and `_optimize_content_structure` is a
no-op placeholder returning the input. -/
def seoOptimizeContent (content : List Char) (target_keywords : List (List Char))
    (min_word_count : Nat) (max_keyword_density : ℚ) : SEOResult :=
  let word_count := (wordsOf content).length
  let initialSuggestions :=
    if word_count < min_word_count then
      [lengthSuggestion word_count min_word_count]
    else []
  let issues :=
    if target_keywords ≠ [] then
      keywordIssues content target_keywords max_keyword_density
    else []
  let readability := analyzeReadability content
  let st := analyzeStructure content
  let metrics : SEOMetrics :=
    { word_count := word_count
      avg_sentence_length := readability.avg_sentence_length
      avg_word_length := readability.avg_word_length
      sentence_count := readability.sentence_count
      paragraph_count := readability.paragraph_count
      h1 := st.h1
      h2 := st.h2
      links := st.links
      images := st.images
      lists := st.lists
      issues := if issues = [] then none else some issues }
  { original_content := content
    optimized_content := content
    metrics := metrics
    suggestions := initialSuggestions ++ seoGenerateSuggestions metrics
    score := seoCalculateScore metrics }

/-- C4, behavior at the failing input: `SEOOptimizer.optimize_content("")`
raises nothing — the source has no empty-content validation — and returns
a result dictionary whose score is 65 (deductions 20 + 10 + 5 for the
zero word count, missing H1 and zero links).  The claimed
`InvalidInputError` never occurs, though the repository's own test
expects a `ValueError` for empty content. -/
theorem seo_optimize_empty_content_returns_score :
    (seoOptimizeContent [] [] 300 (3 / 100)).score = 65 := by
  decide

/-! ## Suggestion generation and de-duplication (C10) -/

/-- The `"context_clarity"` block of `GEOOptimizer._generate_suggestions`. -/
def geoContextSuggestions : Option ContextClarity → List String
  | some clarity =>
    (if clarity.complex_sentence_ratio > 3/10 then
      ["Simplify complex sentences for better AI comprehension"] else []) ++
    (if clarity.transition_density < 2/10 then
      ["Add more transition words to improve flow"] else [])
  | none => []

/-- The `"factual_consistency"` block of
`GEOOptimizer._generate_suggestions`. -/
def geoFactualSuggestions : Option FactualConsistency → List String
  | some factual =>
    (if factual.citation_count = 0 then
      ["Add citations or references to support claims"] else []) ++
    (if factual.verifiable_statements < 3 then
      ["Include more verifiable facts or statistics"] else [])
  | none => []

/-- The `"voice_search"` block of `GEOOptimizer._generate_suggestions`
(keyed on the question and conversational counts). -/
def geoVoiceSuggestions : Option VoiceSearch → List String
  | some voice =>
    (if voice.question_count = 0 then
      ["Add natural questions to optimize for voice search"] else []) ++
    (if voice.conversational_phrases = 0 then
      ["Include more conversational phrases"] else [])
  | none => []

/-- `GEOOptimizer._generate_suggestions` in `src/core/geo`: the three
per-group blocks appended in source order; `optimize_content` assigns
this list directly to the result's `suggestions`. -/
def geoGenerateSuggestions (m : GEOMetrics) : List String :=
  geoContextSuggestions m.context_clarity ++
    (geoFactualSuggestions m.factual_consistency ++
      geoVoiceSuggestions m.voice_search)

/-- A conditionally-emitted rule keeps a sublist of the rule pool one
constructor deeper: the step lemma for walking a suggestion rule chain. -/
theorem ite_singleton_append_sublist {α : Type} (b : Prop) [Decidable b]
    (a : α) {l L : List α} (h : List.Sublist l L) :
    List.Sublist ((if b then [a] else []) ++ l) (a :: L) := by
  split_ifs
  · exact List.Sublist.cons₂ a h
  · exact List.Sublist.cons a h

/-- The last rule of a chain: a conditional singleton is a sublist of the
singleton pool. -/
theorem ite_singleton_sublist {α : Type} (b : Prop) [Decidable b] (a : α) :
    List.Sublist (if b then [a] else []) [a] := by
  split_ifs
  · exact List.Sublist.refl _
  · exact List.nil_sublist _

/-- Whatever the metrics, the SEO rule table emits a sublist of its six
pairwise-distinct rule strings, in fixed order. -/
theorem seoGenerateSuggestions_sublist (m : SEOMetrics) :
    List.Sublist (seoGenerateSuggestions m)
      ["Increase content length to at least 300 words",
       "Consider breaking down long sentences for better readability",
       "Add an H1 heading to your content",
       "Consider adding H2 subheadings to structure your content",
       "Add relevant internal or external links",
       "Consider adding relevant images with alt text"] := by
  unfold seoGenerateSuggestions
  exact ite_singleton_append_sublist _ _ (ite_singleton_append_sublist _ _
    (ite_singleton_append_sublist _ _ (ite_singleton_append_sublist _ _
      (ite_singleton_append_sublist _ _ (ite_singleton_sublist _ _)))))

/-- The context block emits a sublist of its two rule strings. -/
theorem geoContextSuggestions_sublist (o : Option ContextClarity) :
    List.Sublist (geoContextSuggestions o)
      ["Simplify complex sentences for better AI comprehension",
       "Add more transition words to improve flow"] := by
  cases o with
  | none => exact List.nil_sublist _
  | some clarity =>
    unfold geoContextSuggestions
    exact ite_singleton_append_sublist _ _ (ite_singleton_sublist _ _)

/-- The factual block emits a sublist of its two rule strings. -/
theorem geoFactualSuggestions_sublist (o : Option FactualConsistency) :
    List.Sublist (geoFactualSuggestions o)
      ["Add citations or references to support claims",
       "Include more verifiable facts or statistics"] := by
  cases o with
  | none => exact List.nil_sublist _
  | some factual =>
    unfold geoFactualSuggestions
    exact ite_singleton_append_sublist _ _ (ite_singleton_sublist _ _)

/-- The voice block emits a sublist of its two rule strings. -/
theorem geoVoiceSuggestions_sublist (o : Option VoiceSearch) :
    List.Sublist (geoVoiceSuggestions o)
      ["Add natural questions to optimize for voice search",
       "Include more conversational phrases"] := by
  cases o with
  | none => exact List.nil_sublist _
  | some voice =>
    unfold geoVoiceSuggestions
    exact ite_singleton_append_sublist _ _ (ite_singleton_sublist _ _)

/-- The GEO suggestion list is a sublist of the six pairwise-distinct GEO
rule strings. -/
theorem geoGenerateSuggestions_sublist (m : GEOMetrics) :
    List.Sublist (geoGenerateSuggestions m)
      ["Simplify complex sentences for better AI comprehension",
       "Add more transition words to improve flow",
       "Add citations or references to support claims",
       "Include more verifiable facts or statistics",
       "Add natural questions to optimize for voice search",
       "Include more conversational phrases"] := by
  unfold geoGenerateSuggestions
  exact List.Sublist.append (geoContextSuggestions_sublist m.context_clarity)
    (List.Sublist.append
      (geoFactualSuggestions_sublist m.factual_consistency)
      (geoVoiceSuggestions_sublist m.voice_search))

/-- A string starting with prefix `p` differs from any string whose
character data does not start with `p`'s data. -/
theorem string_append_ne {p r s : String}
    (h : ¬ List.IsPrefix p.data s.data) : p ++ r ≠ s := fun he =>
  h ⟨r.data, by rw [← String.data_append, he]⟩

/-- The dynamic length message of `optimize_content` ("Content length
(...)") never collides with a rule-table string: none of the six starts
with `"Content length ("`. -/
theorem lengthSuggestion_not_mem_pool (wc mwc : Nat) :
    lengthSuggestion wc mwc ∉
      ["Increase content length to at least 300 words",
       "Consider breaking down long sentences for better readability",
       "Add an H1 heading to your content",
       "Consider adding H2 subheadings to structure your content",
       "Add relevant internal or external links",
       "Consider adding relevant images with alt text"] := by
  intro hmem
  unfold lengthSuggestion at hmem
  simp only [List.mem_cons, List.not_mem_nil, or_false] at hmem
  rcases hmem with h | h | h | h | h | h <;>
    exact string_append_ne (by decide) h

/-- C10: for every input content and configuration, the suggestions list
of the returned result contains no duplicate strings — in the SEO branch
the dynamic word-count message plus the six fixed rules are pairwise
distinct, and in the GEO branch the six fixed rules are (each rule fires
at most once and the rule strings differ). -/
theorem optimization_suggestions_nodup (content : List Char)
    (targets : List (List Char)) (minWC : Nat) (maxD : ℚ) (m : GEOMetrics) :
    ((seoOptimizeContent content targets minWC maxD).suggestions).Nodup ∧
      (geoGenerateSuggestions m).Nodup := by
  constructor
  · simp only [seoOptimizeContent]
    refine List.Nodup.sublist
      (ite_singleton_append_sublist _ _ (seoGenerateSuggestions_sublist _)) ?_
    exact List.nodup_cons.mpr ⟨lengthSuggestion_not_mem_pool _ _, by decide⟩
  · exact List.Nodup.sublist (geoGenerateSuggestions_sublist m) (by decide)
